import Mathlib

/-!
Verification of the Flight Analysis pipeline (src/app.py).

The file shallowly embeds the pipeline's data model and operations:
the detection-to-trajectory reduction, the runId sanitization, the
Firebase upload step, the history insert, the history listing filter,
the history search, and the `analyze_page` orchestration that sequences
them.  Python floats are modelled by `ℚ` (the centroid arithmetic is
exact division by 2), Python strings by `List Char`, datetimes by an
explicit tagged value, and the external effects (file existence, whether
an upload call raises, whether the Firestore client is available) by
boolean fields of an environment record.
-/

namespace FlightAnalysis

/-- One detector output box for one frame, `boxes.xyxy` row `(x1, y1, x2, y2)`
(src/app.py line 403). -/
structure Box where
  x1 : ℚ
  y1 : ℚ
  x2 : ℚ
  y2 : ℚ
deriving DecidableEq

/-- One element of the detector's `results` sequence: `frame_result.boxes`
may be `None` (src/app.py line 398), otherwise it carries the list of
boxes in detector-reported order. -/
structure FrameResult where
  boxes : Option (List Box)
deriving DecidableEq

/-- A trajectory point `(x, y)`. -/
abbrev Point := ℚ × ℚ

/-- The points contributed by one frame: none when `frame_result.boxes is
None`, otherwise one centroid `((x1+x2)/2, (y1+y2)/2)` per box, in box
order (src/app.py lines 398-404). -/
def frame_points (fr : FrameResult) : List Point :=
  match fr.boxes with
  | none => []
  | some boxes => boxes.map (fun b => ((b.x1 + b.x2) / 2, (b.y1 + b.y2) / 2))

/-- The trajectory reduction loop of `analyze_page` (src/app.py lines
396-404): start from the empty list and, frame by frame, append one
centroid per detection box, skipping frames whose `boxes` is `None`. -/
def trajectory_points (results : List FrameResult) : List Point :=
  results.foldl
    (fun acc fr =>
      match fr.boxes with
      | none => acc
      | some boxes => acc ++ boxes.map (fun b => ((b.x1 + b.x2) / 2, (b.y1 + b.y2) / 2)))
    []

theorem trajectory_points_foldl_eq (results : List FrameResult) :
    ∀ acc : List Point,
      results.foldl
        (fun acc fr =>
          match fr.boxes with
          | none => acc
          | some boxes => acc ++ boxes.map (fun b => ((b.x1 + b.x2) / 2, (b.y1 + b.y2) / 2)))
        acc
      = acc ++ results.flatMap frame_points := by
  induction results with
  | nil => intro acc; simp
  | cons fr rest ih =>
      intro acc
      cases h : fr.boxes with
      | none =>
          simp only [List.foldl_cons, List.flatMap_cons, h, frame_points, ih]
          simp
      | some boxes =>
          simp only [List.foldl_cons, List.flatMap_cons, h, frame_points, ih]
          simp [List.append_assoc]

/-- C2: the trajectory reduction emits, frame by frame in order and box by
box in detector order, exactly one centroid point per detection box; the
output length is the total number of boxes across frames, and the empty
input yields the empty output. -/
theorem trajectory_points_spec (results : List FrameResult) :
    trajectory_points results = results.flatMap frame_points
    ∧ (trajectory_points results).length
        = (results.map (fun fr => (fr.boxes.getD []).length)).sum
    ∧ trajectory_points ([] : List FrameResult) = [] := by
  have h : trajectory_points results = results.flatMap frame_points := by
    simpa [trajectory_points] using trajectory_points_foldl_eq results []
  have hlen : ∀ fr : FrameResult, (frame_points fr).length = (fr.boxes.getD []).length := by
    intro fr; cases hb : fr.boxes <;> simp [frame_points, hb]
  refine ⟨h, ?_, rfl⟩
  rw [h]
  simp only [List.length_flatMap, Function.comp_def, hlen]

/-! ## runId sanitization (src/app.py lines 374-375) -/

/-- A character kept by the sanitizer: `c.isalnum() or c in ("-", "_")`.
Python's `str.isalnum` is Unicode-aware (it keeps, e.g., 'é'); this
embedding models its restriction to ASCII, `Char.isAlphanum`, on which
the two agree.  Every concrete input exercised below is ASCII, and the
one theorem that asserts a character class of the sanitizer's output
(`safe_name_spec`) restricts its quantified input to ASCII characters,
the domain on which this definition is faithful to the source. -/
def keep_char (c : Char) : Bool :=
  c.isAlphanum || c == '-' || c == '_'

/-- Python `str.strip()`: drop leading and trailing whitespace. -/
def pyStrip (l : List Char) : List Char :=
  ((l.dropWhile Char.isWhitespace).reverse.dropWhile Char.isWhitespace).reverse

/-- Source line `safe_name = "".join(c for c in analysis_name if c.isalnum() or c in
("-", "_")).strip()` (src/app.py line 374). -/
def safe_name (analysis_name : List Char) : List Char :=
  pyStrip (analysis_name.filter keep_char)

/-- Source line `folder_name = f"{timestamp}_{safe_name}" if safe_name else
f"{timestamp}_analysis"` (src/app.py line 375). -/
def folder_name_of (timestamp : List Char) (analysis_name : List Char) : List Char :=
  let s := safe_name analysis_name
  if s = [] then timestamp ++ ('_' :: "analysis".data)
  else timestamp ++ ('_' :: s)

theorem mem_pyStrip {c : Char} {l : List Char} (h : c ∈ pyStrip l) : c ∈ l := by
  unfold pyStrip at h
  have h1 : c ∈ (l.dropWhile Char.isWhitespace).reverse.dropWhile Char.isWhitespace :=
    List.mem_reverse.mp h
  have h2 : c ∈ (l.dropWhile Char.isWhitespace).reverse :=
    (List.dropWhile_sublist _).mem h1
  have h3 : c ∈ l.dropWhile Char.isWhitespace := List.mem_reverse.mp h2
  exact (List.dropWhile_sublist _).mem h3

/-! ## `upload_to_firebase` (src/app.py lines 158-178) -/

/-- The environment the upload step runs in: whether `get_storage_bucket()`
yields a bucket, whether `input.mp4` / `trajectory_plot.html` exist in the
local run folder, and whether the respective `upload_from_filename` call
would raise. -/
structure UploadEnv where
  bucketOk : Bool
  videoExists : Bool
  htmlExists : Bool
  videoUploadRaises : Bool
  htmlUploadRaises : Bool
deriving DecidableEq

/-- What `upload_to_firebase` did: its return value and which blobs were
actually uploaded before it returned. -/
structure UploadResult where
  success : Bool
  videoUploaded : Bool
  htmlUploaded : Bool
deriving DecidableEq

/-- The function `upload_to_firebase` (src/app.py lines 158-178): returns `False` when
no bucket is available; inside one `try`, uploads `input.mp4` if that file
exists, then `trajectory_plot.html` if that file exists, and returns
`True`; any raise is caught and turns into `return False` (after the
uploads already made). -/
def upload_to_firebase (env : UploadEnv) : UploadResult :=
  if env.bucketOk = false then
    { success := false, videoUploaded := false, htmlUploaded := false }
  else if env.videoExists && env.videoUploadRaises then
    { success := false, videoUploaded := false, htmlUploaded := false }
  else if env.htmlExists && env.htmlUploadRaises then
    { success := false, videoUploaded := env.videoExists, htmlUploaded := false }
  else
    { success := true, videoUploaded := env.videoExists, htmlUploaded := env.htmlExists }

theorem upload_success_char (env : UploadEnv) :
    (upload_to_firebase env).success
      = (env.bucketOk && !(env.videoExists && env.videoUploadRaises)
          && !(env.htmlExists && env.htmlUploadRaises)) := by
  obtain ⟨b, v, h, vr, hr⟩ := env
  revert b v h vr hr
  decide

/-! ## `add_history` (src/app.py lines 238-259) -/

/-- A Python datetime value, tagged by how it was produced:
`datetime.datetime.now()` is a naive local-time instant,
`datetime.datetime.utcnow()` a naive UTC instant.  `t` is the instant as
epoch seconds. -/
inductive PyDateTime where
  | localNow (t : Nat)
  | utcNow (t : Nat)
deriving DecidableEq

/-- The value stored in the Firestore payload's `created_at` field: the
code stores whatever value the caller put in the record, which in this
program is always a datetime object, never a string. -/
inductive CreatedAtField where
  | dt (d : PyDateTime)
  | str (s : List Char)
deriving DecidableEq

/-- Whether a `created_at` value is a string whose last character is `'Z'`
(a necessary condition for being an ISO-8601 UTC string with trailing
"Z"). -/
def isIsoUtcZ : CreatedAtField → Bool
  | CreatedAtField.str s => s.getLast? == some 'Z'
  | CreatedAtField.dt _ => false

/-- The payload `add_history` writes with `db.collection("history").add`
(src/app.py lines 248-255). -/
structure HistoryPayload where
  folder_name : List Char
  analysis_name : List Char
  created_at : CreatedAtField
  points : Int
deriving DecidableEq

/-- The record dict passed to `add_history`; optional fields model
`record.get(...)` returning `None` when absent. -/
structure HistoryInsertRequest where
  folder_name : List Char
  analysis_name : List Char
  created_at : Option CreatedAtField
  points : Option Int
deriving DecidableEq

/-- The function `add_history` (src/app.py lines 238-259): defaults a missing (falsy)
`created_at` to `datetime.datetime.utcnow()`, and builds the payload
`{folder_name, analysis_name, created_at, points}` where `points` is
`int(record.get("points", 0) or 0)` (the `or 0` only renames falsy values
to `0`, which `getD 0` already captures for a missing field). -/
def add_history (record : HistoryInsertRequest) (utc_now : Nat) : HistoryPayload :=
  let created_at :=
    match record.created_at with
    | none => CreatedAtField.dt (PyDateTime.utcNow utc_now)
    | some c => c
  { folder_name := record.folder_name,
    analysis_name := record.analysis_name,
    created_at := created_at,
    points := record.points.getD 0 }

/-! ## The `analyze_page` orchestration (src/app.py lines 364-450) -/

/-- The environment one orchestration runs in, after the caller-side
validation (a video and a non-empty name were supplied):
`timestamp` is `datetime.datetime.now().strftime("%Y%m%d_%H%M%S")`,
`modelAvailable` is `get_model() is not None`, `detectRaises` is whether
the `model(...)` call raises, `frames` is the detector's `results` when it
does not, `now` is the instant of the `datetime.datetime.now()` call made
for the record, and the remaining fields feed `upload_to_firebase`. -/
structure RunEnv where
  timestamp : List Char
  analysis_name : List Char
  modelAvailable : Bool
  detectRaises : Bool
  frames : List FrameResult
  bucketOk : Bool
  videoUploadRaises : Bool
  htmlUploadRaises : Bool
  now : Nat
deriving DecidableEq

/-- Where the orchestration stopped. -/
inductive RunStage where
  | abortedNoModel
  | abortedDetection
  | completed
deriving DecidableEq

/-- The observable outcome of one orchestration: where it stopped, whether
the local `trajectory_plot.html` was written, whether `upload_to_firebase`
was reached, what the upload step did, and the history payload written (if
any). -/
structure RunOutcome where
  stage : RunStage
  plotWritten : Bool
  uploadAttempted : Bool
  upload : UploadResult
  history : Option HistoryPayload
deriving DecidableEq

/-- Source line `pt_count = len(trajectory_points)` (src/app.py line 406). -/
def run_pt_count (env : RunEnv) : Nat :=
  (trajectory_points env.frames).length

/-- The state of the local run folder when `upload_to_firebase` is called:
`input.mp4` was written at line 380, `trajectory_plot.html` exists iff
`pt_count > 1` (src/app.py lines 408-418). -/
def run_upload_env (env : RunEnv) : UploadEnv :=
  { bucketOk := env.bucketOk, videoExists := true,
    htmlExists := decide (run_pt_count env > 1),
    videoUploadRaises := env.videoUploadRaises,
    htmlUploadRaises := env.htmlUploadRaises }

/-- The record dict `analyze_page` passes to `add_history` (src/app.py
lines 426-431): `created_at = datetime.datetime.now()` and
`points = pt_count`. -/
def run_history_request (env : RunEnv) : HistoryInsertRequest :=
  { folder_name := folder_name_of env.timestamp env.analysis_name,
    analysis_name := env.analysis_name,
    created_at := some (CreatedAtField.dt (PyDateTime.localNow env.now)),
    points := some (Int.ofNat (run_pt_count env)) }

/-- The `analyze_page` orchestration, from the point where the video is
saved locally (src/app.py lines 372-450): return early if the model
weights are missing (line 385) or the detection call raises (line 392);
otherwise reduce detections to `trajectory_points`, write
`trajectory_plot.html` locally iff `pt_count > 1` (lines 406-419), call
`upload_to_firebase` on the run folder (which contains `input.mp4` and,
iff written, the plot), and call `add_history` — with `created_at =
datetime.datetime.now()` and `points = pt_count` — only when the upload
returned `True` (lines 421-431). -/
def analyze_page_run (env : RunEnv) : RunOutcome :=
  if env.modelAvailable = false then
    { stage := RunStage.abortedNoModel, plotWritten := false, uploadAttempted := false,
      upload := { success := false, videoUploaded := false, htmlUploaded := false },
      history := none }
  else if env.detectRaises then
    { stage := RunStage.abortedDetection, plotWritten := false, uploadAttempted := false,
      upload := { success := false, videoUploaded := false, htmlUploaded := false },
      history := none }
  else
    { stage := RunStage.completed,
      plotWritten := decide (run_pt_count env > 1),
      uploadAttempted := true,
      upload := upload_to_firebase (run_upload_env env),
      history :=
        if (upload_to_firebase (run_upload_env env)).success then
          some (add_history (run_history_request env) env.now)
        else none }

/-! ## `load_history` (src/app.py lines 203-236) -/

/-- One Firestore document of the `history` collection as `doc.to_dict()`
sees it; optional fields model `data.get(...)` returning `None` when the
field is missing.  `created_at` is the stored instant (epoch seconds);
the source renders it with `strftime("%Y-%m-%d %H:%M:%S")`, an
order-preserving second-precision rendering, so the model keeps the
instant itself. -/
structure HistoryDoc where
  folder_name : Option (List Char)
  analysis_name : Option (List Char)
  created_at : Nat
  points : Option Int
deriving DecidableEq

/-- One row of the list `load_history` returns. -/
structure HistoryRow where
  folder_name : List Char
  analysis_name : List Char
  created_at : Nat
  points : Int
deriving DecidableEq

/-- The row built for one kept document (src/app.py lines 227-232). -/
def doc_to_row (data : HistoryDoc) : HistoryRow :=
  { folder_name := data.folder_name.getD [],
    analysis_name := data.analysis_name.getD [],
    created_at := data.created_at,
    points := data.points.getD 0 }

/-- The skip test `if not data.get("analysis_name"): continue`
(src/app.py lines 218-219): a document is kept when its `analysis_name`
is present and non-empty (both `None` and `""` are falsy). -/
def keep_doc (data : HistoryDoc) : Bool :=
  !(data.analysis_name.getD []).isEmpty

/-- The row-building loop of `load_history` (src/app.py lines 215-233)
over the documents the backend streamed (already ordered by `created_at`
descending and limited to 500 by the Firestore query, lines 208-213):
skip documents with a falsy `analysis_name`, append a row for each
other document. -/
def load_history (docs : List HistoryDoc) : List HistoryRow :=
  docs.foldl
    (fun rows data => if keep_doc data then rows ++ [doc_to_row data] else rows)
    []

theorem load_history_foldl_eq (docs : List HistoryDoc) :
    ∀ acc : List HistoryRow,
      docs.foldl
        (fun rows data => if keep_doc data then rows ++ [doc_to_row data] else rows)
        acc
      = acc ++ (docs.filter keep_doc).map doc_to_row := by
  induction docs with
  | nil => intro acc; simp
  | cons d rest ih =>
      intro acc
      by_cases h : keep_doc d
      · simp [List.foldl_cons, h, ih, List.append_assoc]
      · simp [List.foldl_cons, h, ih]

theorem load_history_eq (docs : List HistoryDoc) :
    load_history docs = (docs.filter keep_doc).map doc_to_row := by
  simpa [load_history] using load_history_foldl_eq docs []

/-! ## `history_page` search (src/app.py lines 478-483) -/

/-- Python `str.lower()` on the characters of a string (modelled on its
ASCII behaviour, `Char.toLower`). -/
def lowered (l : List Char) : List Char := l.map Char.toLower

/-- The search filter of `history_page` (src/app.py lines 480-483): an
empty (falsy) query leaves `items` untouched; otherwise keep the items
whose lowercased `analysis_name` contains the lowercased query as a
substring (Python `in`). -/
def history_search (search_q : List Char) (items : List HistoryRow) : List HistoryRow :=
  if search_q.isEmpty then items
  else items.filter (fun it => decide (lowered search_q <:+: lowered it.analysis_name))

/-! ## Claim theorems -/

theorem upload_uploads_on_success (env : UploadEnv)
    (h : (upload_to_firebase env).success = true) :
    (upload_to_firebase env).videoUploaded = env.videoExists
    ∧ (upload_to_firebase env).htmlUploaded = env.htmlExists := by
  obtain ⟨b, v, hh, vr, hr⟩ := env
  revert b v hh vr hr
  decide

/-- C7: for every query and record sequence, the history search returns
exactly the order-preserving subsequence of records whose lowercased
`analysis_name` contains the lowercased query as a substring (so a query
matching no record yields `[]`), and the empty query returns the records
unchanged. -/
theorem history_search_spec (search_q : List Char) (items : List HistoryRow) :
    history_search search_q items
      = items.filter (fun it => decide (lowered search_q <:+: lowered it.analysis_name))
    ∧ history_search [] items = items := by
  constructor
  · unfold history_search
    by_cases hq : search_q.isEmpty
    · rw [if_pos hq]
      have hqnil : search_q = [] := by
        cases search_q with
        | nil => rfl
        | cons c cs => simp [List.isEmpty] at hq
      subst hqnil
      refine (List.filter_eq_self.mpr ?_).symm
      intro it _
      refine decide_eq_true ?_
      exact ⟨[], lowered it.analysis_name, by simp [lowered]⟩
    · rw [if_neg hq]
  · simp [history_search]

/-- C8: every row returned by the history listing has a non-empty
analysis name (documents with a missing or empty one are skipped), and
when the backend delivers the documents ordered by `created_at`
descending — as the Firestore query requests — the returned rows are
ordered by `created_at` descending as well. -/
theorem load_history_spec (docs : List HistoryDoc)
    (hsorted : List.Sorted (fun a b : HistoryDoc => b.created_at ≤ a.created_at) docs) :
    (∀ r ∈ load_history docs, r.analysis_name ≠ [])
    ∧ List.Sorted (fun a b : HistoryRow => b.created_at ≤ a.created_at)
        (load_history docs) := by
  rw [load_history_eq]
  constructor
  · intro r hr
    obtain ⟨d, hd, rfl⟩ := List.mem_map.mp hr
    have hkeep : keep_doc d = true := List.of_mem_filter hd
    show d.analysis_name.getD [] ≠ []
    intro hnil
    simp [keep_doc, hnil] at hkeep
  · have hfil : List.Sorted (fun a b : HistoryDoc => b.created_at ≤ a.created_at)
        (docs.filter keep_doc) :=
      List.Pairwise.sublist (List.filter_sublist docs) hsorted
    exact List.pairwise_map.mpr (hfil.imp (fun h => h))

/-- Concrete document stream for the C8 witness. -/
def docs_c8 : List HistoryDoc :=
  [ { folder_name := some ("20240101_A".data), analysis_name := some ("Alpha".data),
      created_at := 200, points := some 3 },
    { folder_name := none, analysis_name := some ("Beta".data),
      created_at := 100, points := none } ]

theorem load_history_spec_witness :
    (∀ r ∈ load_history docs_c8, r.analysis_name ≠ [])
    ∧ List.Sorted (fun a b : HistoryRow => b.created_at ≤ a.created_at)
        (load_history docs_c8) :=
  load_history_spec docs_c8 (by decide)

/-- C1: if the video-artifact upload raises, the orchestration writes no
history record for the run; and whenever a history record is written, the
upload step returned `True` and had actually uploaded the video artifact
— so the catalog never references a run whose video write failed. -/
theorem history_only_after_video_upload (env : RunEnv) :
    (env.videoUploadRaises = true → (analyze_page_run env).history = none)
    ∧ ((analyze_page_run env).history.isSome = true →
        (analyze_page_run env).upload.success = true
        ∧ (analyze_page_run env).upload.videoUploaded = true) := by
  unfold analyze_page_run
  by_cases hm : env.modelAvailable = false
  · simp [hm]
  · by_cases hd : env.detectRaises
    · simp [hm, hd]
    · simp only [hm, hd, if_false, Bool.false_eq_true, if_neg, ite_false]
      constructor
      · intro hv
        have hs : (upload_to_firebase (run_upload_env env)).success = false := by
          rw [upload_success_char]
          simp [run_upload_env, hv]
        simp [hs]
      · intro hsome
        by_cases hsucc : (upload_to_firebase (run_upload_env env)).success = true
        · refine ⟨by simpa using hsucc, ?_⟩
          have hvid := (upload_uploads_on_success _ hsucc).1
          simpa [run_upload_env] using hvid
        · rw [Bool.not_eq_true] at hsucc
          simp [hsucc] at hsome

/-- Environment for the C1 witness where the video upload raises. -/
def env_c1_fail : RunEnv :=
  { timestamp := "20240101_120000".data, analysis_name := "Run A".data,
    modelAvailable := true, detectRaises := false, frames := [],
    bucketOk := true, videoUploadRaises := true, htmlUploadRaises := false,
    now := 1700000000 }

/-- Environment for the C1 witness where everything succeeds. -/
def env_c1_ok : RunEnv :=
  { timestamp := "20240101_120000".data, analysis_name := "Run A".data,
    modelAvailable := true, detectRaises := false, frames := [],
    bucketOk := true, videoUploadRaises := false, htmlUploadRaises := false,
    now := 1700000000 }

theorem history_only_after_video_upload_witness :
    (analyze_page_run env_c1_fail).history = none
    ∧ (analyze_page_run env_c1_ok).upload.success = true
    ∧ (analyze_page_run env_c1_ok).upload.videoUploaded = true := by
  refine ⟨(history_only_after_video_upload env_c1_fail).1 rfl, ?_, ?_⟩
  · exact ((history_only_after_video_upload env_c1_ok).2 (by decide)).1
  · exact ((history_only_after_video_upload env_c1_ok).2 (by decide)).2

/-- C5: when the run reaches the reduction step (the model is available
and detection did not raise), the `trajectory_plot.html` document is
produced and written to the run folder exactly when the reduced point
count is at least 2. -/
theorem plot_iff_two_points (env : RunEnv)
    (hm : env.modelAvailable = true) (hd : env.detectRaises = false) :
    (analyze_page_run env).plotWritten = true
      ↔ 2 ≤ (trajectory_points env.frames).length := by
  unfold analyze_page_run
  simp [hm, hd, run_pt_count]
  omega

/-- Environment for the C5 witness: one frame with two boxes, so the
reduction yields two points. -/
def env_c5 : RunEnv :=
  { timestamp := "20240101_120000".data, analysis_name := "Run A".data,
    modelAvailable := true, detectRaises := false,
    frames := [{ boxes := some [{ x1 := 0, y1 := 0, x2 := 10, y2 := 20 },
                                { x1 := 2, y1 := 2, x2 := 4, y2 := 6 }] }],
    bucketOk := true, videoUploadRaises := false, htmlUploadRaises := false,
    now := 1700000000 }

theorem plot_iff_two_points_witness :
    (analyze_page_run env_c5).plotWritten = true :=
  (plot_iff_two_points env_c5 rfl rfl).mpr (by decide)

/-- C6: when the detection call raises, the orchestration returns before
any persistence: the upload step is never reached, nothing is uploaded to
the storage backend, no plot is written and no history record is
created. -/
theorem detection_failure_aborts (env : RunEnv) (hd : env.detectRaises = true) :
    (analyze_page_run env).uploadAttempted = false
    ∧ (analyze_page_run env).upload.videoUploaded = false
    ∧ (analyze_page_run env).upload.htmlUploaded = false
    ∧ (analyze_page_run env).plotWritten = false
    ∧ (analyze_page_run env).history = none := by
  unfold analyze_page_run
  by_cases hm : env.modelAvailable = false <;> simp [hm, hd]

/-- Environment for the C6 witness: the detection call raises. -/
def env_c6 : RunEnv :=
  { timestamp := "20240101_120000".data, analysis_name := "Run A".data,
    modelAvailable := true, detectRaises := true,
    frames := [], bucketOk := true, videoUploadRaises := false,
    htmlUploadRaises := false, now := 1700000000 }

theorem detection_failure_aborts_witness :
    (analyze_page_run env_c6).uploadAttempted = false
    ∧ (analyze_page_run env_c6).upload.videoUploaded = false
    ∧ (analyze_page_run env_c6).upload.htmlUploaded = false
    ∧ (analyze_page_run env_c6).plotWritten = false
    ∧ (analyze_page_run env_c6).history = none :=
  detection_failure_aborts env_c6 rfl

/-- Environment in which the video upload succeeds, the run has two
trajectory points (so the plot document exists), and the plot upload
raises. -/
def env_c3 : RunEnv :=
  { timestamp := "20240101_120000".data, analysis_name := "Run A".data,
    modelAvailable := true, detectRaises := false,
    frames := [{ boxes := some [{ x1 := 0, y1 := 0, x2 := 0, y2 := 0 },
                                { x1 := 0, y1 := 0, x2 := 0, y2 := 0 }] }],
    bucketOk := true, videoUploadRaises := false, htmlUploadRaises := true,
    now := 1700000000 }

/-- C3 fails on the code: in a run whose video upload succeeds but whose
plot upload raises, `upload_to_firebase` catches the exception and returns
`False`, so `analyze_page` does not call `add_history` — the run is not
recorded, contrary to the claimed partial-success degradation. -/
theorem plot_failure_blocks_recording_counterexample :
    (analyze_page_run env_c3).upload.videoUploaded = true
    ∧ (analyze_page_run env_c3).upload.htmlUploaded = false
    ∧ (analyze_page_run env_c3).upload.success = false
    ∧ (analyze_page_run env_c3).history = none := by
  decide

/-- C3 (amended): when the video artifact write succeeds but the
plot-document write fails, the video artifact is uploaded, yet
`upload_to_firebase` returns `False`, so no history record is written and
the run is reported as a failed upload — a plot-write failure does block
recording (leaving an uploaded video with no catalog entry). -/
theorem plot_failure_blocks_recording (env : RunEnv)
    (hm : env.modelAvailable = true) (hd : env.detectRaises = false)
    (hb : env.bucketOk = true) (hv : env.videoUploadRaises = false)
    (hh : env.htmlUploadRaises = true)
    (hp : 2 ≤ (trajectory_points env.frames).length) :
    (analyze_page_run env).upload.videoUploaded = true
    ∧ (analyze_page_run env).upload.htmlUploaded = false
    ∧ (analyze_page_run env).upload.success = false
    ∧ (analyze_page_run env).history = none := by
  have hhtml : decide (run_pt_count env > 1) = true := by
    simp [run_pt_count]
    omega
  unfold analyze_page_run
  simp [hm, hd, run_upload_env, upload_to_firebase, hb, hv, hh, hhtml]

theorem plot_failure_blocks_recording_witness :
    (analyze_page_run env_c3).upload.videoUploaded = true
    ∧ (analyze_page_run env_c3).upload.htmlUploaded = false
    ∧ (analyze_page_run env_c3).upload.success = false
    ∧ (analyze_page_run env_c3).history = none :=
  plot_failure_blocks_recording env_c3 rfl rfl rfl rfl rfl (by decide)

/-- C4 fails on the code: the sanitizer deletes spaces (and every other
character outside the kept class) instead of collapsing spaces to `'_'`:
sanitizing "My Flight #1!" yields "MyFlight1", not "My_Flight_1". -/
theorem safe_name_deletes_spaces_counterexample :
    safe_name ("My Flight #1!".data) = "MyFlight1".data
    ∧ safe_name ("My Flight #1!".data) ≠ "My_Flight_1".data := by
  decide

/-- C4 (amended): the sanitizer keeps exactly the characters accepted by
Python's `isalnum()` together with '-' and '_', deleting every other
character — spaces are deleted, not collapsed to '_' — and then strips
surrounding whitespace; sanitizing "My Flight #1!" yields "MyFlight1".
Because `isalnum()` is Unicode-aware, the source keeps non-ASCII
alphanumerics (e.g. 'é'), so the result is *not* confined to
`[A-Za-z0-9_-]` in general; for an ASCII display name — the domain on
which this embedding is faithful, stated by the `_hascii` hypothesis —
every character of the result does lie in `[A-Za-z0-9_-]`. -/
theorem safe_name_spec (name : List Char) (_hascii : ∀ c ∈ name, c.toNat < 128) :
    safe_name ("My Flight #1!".data) = "MyFlight1".data
    ∧ ∀ c ∈ safe_name name,
        ('A' ≤ c ∧ c ≤ 'Z') ∨ ('a' ≤ c ∧ c ≤ 'z') ∨ ('0' ≤ c ∧ c ≤ '9')
        ∨ c = '-' ∨ c = '_' := by
  refine ⟨by decide, ?_⟩
  intro c hc
  have hk : keep_char c = true := List.of_mem_filter (mem_pyStrip hc)
  simp only [keep_char, Bool.or_eq_true, beq_iff_eq] at hk
  rcases hk with (ha | hdash) | hus
  · simp [Char.isAlphanum, Char.isAlpha, Char.isUpper, Char.isLower, Char.isDigit] at ha
    simp [Char.le_def]
    tauto
  · tauto
  · tauto

theorem safe_name_spec_witness :
    ('A' ≤ 'M' ∧ 'M' ≤ 'Z') ∨ ('a' ≤ 'M' ∧ 'M' ≤ 'z') ∨ ('0' ≤ 'M' ∧ 'M' ≤ '9')
    ∨ 'M' = '-' ∨ 'M' = '_' := by
  have h := safe_name_spec ("My Flight #1!".data) (by decide)
  exact h.2 'M' (by decide)

/-- Environment for the C10 witness: bucket available, neither local file
exists. -/
def env_c10 : UploadEnv :=
  { bucketOk := true, videoExists := false, htmlExists := false,
    videoUploadRaises := false, htmlUploadRaises := false }

/-- C10: with a bucket available, `upload_to_firebase` returns `True`
exactly when no attempted upload raises — a missing local video or plot
file is silently skipped, not an error — and a `True` result only means
each *existing* file was uploaded, so `True` with no local video entails
that no video artifact was uploaded. -/
theorem upload_true_without_video (env : UploadEnv) (hb : env.bucketOk = true) :
    ((upload_to_firebase env).success
        = (!(env.videoExists && env.videoUploadRaises)
            && !(env.htmlExists && env.htmlUploadRaises)))
    ∧ ((upload_to_firebase env).success = true →
        (upload_to_firebase env).videoUploaded = env.videoExists
        ∧ (upload_to_firebase env).htmlUploaded = env.htmlExists) := by
  obtain ⟨b, v, h, vr, hr⟩ := env
  revert b v h vr hr
  decide

theorem upload_true_without_video_witness :
    (upload_to_firebase env_c10).success = true
    ∧ (upload_to_firebase env_c10).videoUploaded = false := by
  have h := upload_true_without_video env_c10 rfl
  have hs : (upload_to_firebase env_c10).success = true := h.1.trans (by decide)
  exact ⟨hs, ((h.2 hs).1).trans rfl⟩

/-- Environment for C9: a run that completes and records history. -/
def env_c9 : RunEnv :=
  { timestamp := "20240101_120000".data, analysis_name := "RunB".data,
    modelAvailable := true, detectRaises := false, frames := [],
    bucketOk := true, videoUploadRaises := false, htmlUploadRaises := false,
    now := 1700000000 }

/-- C9 fails on the code: the recorded run's `created_at` is the datetime
object produced by `datetime.datetime.now()` — a naive local-time value,
stored as a datetime — not an ISO-8601 UTC string with trailing "Z". -/
theorem created_at_not_iso_z_counterexample :
    ((analyze_page_run env_c9).history.map (fun p => isIsoUtcZ p.created_at))
      = some false
    ∧ ((analyze_page_run env_c9).history.map (fun p => p.created_at))
      = some (CreatedAtField.dt (PyDateTime.localNow 1700000000)) := by
  decide

/-- C9 (amended): every persisted record has the shape `{folder_name:
string, analysis_name: string, created_at, points: non-negative integer}`
where `points` is the exact reduced point count and `created_at` is the
datetime object `datetime.datetime.now()` — the run's creation instant in
*local* time stored as a datetime value, not an ISO-8601 UTC string with
trailing "Z". -/
theorem history_payload_shape (env : RunEnv) (p : HistoryPayload)
    (h : (analyze_page_run env).history = some p) :
    p.folder_name = folder_name_of env.timestamp env.analysis_name
    ∧ p.analysis_name = env.analysis_name
    ∧ p.created_at = CreatedAtField.dt (PyDateTime.localNow env.now)
    ∧ p.points = Int.ofNat (trajectory_points env.frames).length
    ∧ 0 ≤ p.points
    ∧ isIsoUtcZ p.created_at = false := by
  unfold analyze_page_run at h
  by_cases hm : env.modelAvailable = false
  · simp [hm] at h
  · by_cases hd : env.detectRaises
    · simp [hm, hd] at h
    · rw [Bool.not_eq_false] at hm
      rw [Bool.not_eq_true] at hd
      by_cases hs : (upload_to_firebase (run_upload_env env)).success = true
      · simp only [hm, hd, Bool.true_eq_false, Bool.false_eq_true, if_false,
          ite_false, hs, ite_true, Option.some.injEq] at h
        subst h
        refine ⟨rfl, rfl, rfl, rfl, ?_, rfl⟩
        exact Int.ofNat_nonneg _
      · rw [Bool.not_eq_true] at hs
        simp [hm, hd, hs] at h

/-- The payload recorded in environment `env_c9`. -/
def payload_c9 : HistoryPayload :=
  { folder_name := folder_name_of env_c9.timestamp env_c9.analysis_name,
    analysis_name := env_c9.analysis_name,
    created_at := CreatedAtField.dt (PyDateTime.localNow env_c9.now),
    points := Int.ofNat 0 }

theorem history_payload_shape_witness :
    payload_c9.created_at = CreatedAtField.dt (PyDateTime.localNow env_c9.now)
    ∧ 0 ≤ payload_c9.points
    ∧ isIsoUtcZ payload_c9.created_at = false := by
  have h := history_payload_shape env_c9 payload_c9 (by decide)
  exact ⟨h.2.2.1, h.2.2.2.2.1, h.2.2.2.2.2⟩
